import Mathlib

set_option maxRecDepth 100000

/-!
Shallow embedding of the curs library (src/lib.rs): the request builder,
the body-encoding decision procedure in `Request::send`, the
`MultipartBodyBuilder`, form-urlencoding of params, and
`decode_success` response classification.

Bytes are modelled as natural numbers: the body buffers of the source are
`Vec<u8>`, and string data enters them as UTF-8 bytes (via `format!`).
External collaborators (URL parsing/serialization, the filesystem, mime
guessing from a path, and the random boundary) are parameters gathered in
an `Env`; panics arising from `unwrap()` in the source are modelled as a
distinguished outcome, never silently erased.
-/

namespace Curs

/-- UTF-8 encoding of one character, as byte values 0..255. -/
def utf8Bytes (c : Char) : List Nat :=
  let n := c.toNat
  if n < 128 then [n]
  else if n < 2048 then [192 + n / 64, 128 + n % 64]
  else if n < 65536 then [224 + n / 4096, 128 + (n / 64) % 64, 128 + n % 64]
  else [240 + n / 262144, 128 + (n / 4096) % 64, 128 + (n / 64) % 64, 128 + n % 64]

/-- The UTF-8 bytes of a string, as `format!` appends them to a `Vec<u8>`. -/
def strBytes (s : String) : List Nat :=
  (s.data.map utf8Bytes).flatten

/-- Uppercase hex digit, as percent-encoding prints it. -/
def hexDigit (n : Nat) : Char :=
  if n < 10 then Char.ofNat (48 + n) else Char.ofNat (55 + n)

/-- Bytes left intact by `url::form_urlencoded`: ASCII alphanumerics and
the four bytes 42 (star), 45 (hyphen), 46 (dot), 95 (underscore). -/
def formSafeByte (b : Nat) : Bool :=
  (48 ≤ b && b ≤ 57) || (65 ≤ b && b ≤ 90) || (97 ≤ b && b ≤ 122)
  || b == 42 || b == 45 || b == 46 || b == 95

/-- Form-urlencoding of one byte: space becomes a plus sign, safe bytes
stay, anything else becomes a percent escape. -/
def formEncodeByte (b : Nat) : String :=
  if b == 32 then ("+")
  else if formSafeByte b then String.singleton (Char.ofNat b)
  else String.mk [Char.ofNat 37, hexDigit (b / 16), hexDigit (b % 16)]

/-- Form-urlencoding of a whole string, byte by byte over its UTF-8 form. -/
def formEncodeStr (s : String) : String :=
  String.join ((strBytes s).map formEncodeByte)

/-- Model of `Param`: each param is just a pair of strings (source: `(&str, &str)`). -/
abbrev Param := String × String

/-- Model of `Params`: all params go in an ordered list. -/
abbrev Params := List Param

/-- Model of `url::form_urlencoded::serialize`: encode every name and value,
join each pair with an equals sign and the pairs with ampersands,
preserving input order and duplicates. -/
def formUrlEncode (ps : Params) : String :=
  String.intercalate ("&") (ps.map (fun p => formEncodeStr p.1 ++ "=" ++ formEncodeStr p.2))

/-- Splitting a character list at slashes (a structural model of
splitting a path string on the separator). -/
def splitSlash : List Char → List (List Char)
  | [] => [[]]
  | c :: rest =>
    match splitSlash rest with
    | [] => [[]]
    | cur :: done =>
      if c = Char.ofNat 47 then [] :: cur :: done else (c :: cur) :: done

/-- Model of `std::path::Path::file_name`, on slash-separated strings:
the last normal component (empty and current-dir components are not
components), and `none` when the path has no components or ends in a
parent-dir component. -/
def fileName (p : String) : Option String :=
  match (((splitSlash p.data).map String.mk).filter (fun c => c != "" && c != ".")).getLast? with
  | none => none
  | some c => if c = ".." then none else some c

/-- Model of `hyper::header::Headers`, written as a name/value list. -/
abbrev Headers := List (String × String)

/-- Model of `Headers::set`: replace-by-name insertion. -/
def Headers.set (hs : Headers) (name value : String) : Headers :=
  (name, value) :: hs.filter (fun p => p.1 != name)

/-- Header lookup by name. -/
def Headers.get (hs : Headers) (name : String) : Option String :=
  (hs.find? (fun p => p.1 == name)).map Prod.snd

/-- Model of `FileUpload`: a form field name, an optional explicit mime type, and
a path to a local file. -/
structure FileUpload where
  name : String
  mime : Option String
  path : String
deriving DecidableEq, Repr

/-- The external collaborators of one `send` call: `into_url` is URL
parsing plus re-serialization (`none` is a parse failure, which the
source unwraps), `fs` is `File::open` plus `read_to_end` (`none` is an
IO failure), `guessMime` is `mime_guess::guess_mime_type`, and
`boundary` is the random 30-character token drawn in
`MultipartBodyBuilder::new`. -/
structure Env where
  intoUrl : String → Option String
  fs : String → Option (List Nat)
  guessMime : String → String
  boundary : String

/-- Outcome of `MultipartBodyBuilder::build`: a panic (from
`file_name().unwrap()`), an IO error (returned as
`CursError::Network`), or the finished body bytes. -/
inductive BuildOut where
  | panic
  | ioErr
  | ok (body : List Nat)
deriving DecidableEq, Repr

/-- The file loop of `MultipartBodyBuilder::build`, threading the body
accumulated so far. For each file the source appends the boundary line,
the Content-Disposition line with the field name, the filename (note
`path.file_name().unwrap()`: a panic when the path has no final
component), the Content-Type line using the explicit mime or a guess
from the path, then reads the whole file into the body and appends a
blank line; after the loop it appends the terminator. -/
def buildFiles (env : Env) (boundary : String) : List Nat → List FileUpload → BuildOut
  | acc, [] => .ok (acc ++ strBytes ("\r\n--" ++ boundary ++ "--"))
  | acc, f :: rest =>
    match fileName f.path with
    | none => .panic
    | some base =>
      match env.fs f.path with
      | none => .ioErr
      | some contents =>
        buildFiles env boundary
          (acc ++ strBytes ("\r\n--" ++ boundary ++ "\r\n")
               ++ strBytes ("Content-Disposition: form-data; name=\"" ++ f.name ++ "\"")
               ++ strBytes ("; filename=\"" ++ base ++ "\"")
               ++ strBytes ("\r\nContent-Type: " ++ f.mime.getD (env.guessMime f.path) ++ "\r\n\r\n")
               ++ contents
               ++ strBytes ("\r\n\r\n"))
          rest

/-- One param part as the source renders it: the boundary line, the
Content-Disposition line, then a single CRLF, the value, and a CRLF. -/
def multipartParamPart (boundary : String) (p : Param) : List Nat :=
  strBytes ("\r\n--" ++ boundary ++ "\r\n")
  ++ strBytes ("Content-Disposition: form-data; name=\"" ++ p.1 ++ "\"")
  ++ strBytes ("\r\n" ++ p.2 ++ "\r\n")

/-- One file part as the source renders it, assuming the basename exists
and the file is readable (junk defaults otherwise; the build theorems
carry those hypotheses). -/
def multipartFilePart (env : Env) (boundary : String) (f : FileUpload) : List Nat :=
  strBytes ("\r\n--" ++ boundary ++ "\r\n")
  ++ strBytes ("Content-Disposition: form-data; name=\"" ++ f.name ++ "\"")
  ++ strBytes ("; filename=\"" ++ (fileName f.path).getD "" ++ "\"")
  ++ strBytes ("\r\nContent-Type: " ++ f.mime.getD (env.guessMime f.path) ++ "\r\n\r\n")
  ++ (env.fs f.path).getD []
  ++ strBytes ("\r\n\r\n")

namespace MultipartBodyBuilder

/-- Model of `MultipartBodyBuilder::build`: all params first, in order, then all
files, in order, then the terminator. The boundary comes from
`MultipartBodyBuilder::new` (in `Env`). -/
def build (env : Env) (boundary : String) (files : List FileUpload) (params : Params) : BuildOut :=
  buildFiles env boundary
    (params.foldl (fun acc p => acc ++ multipartParamPart boundary p) []) files

end MultipartBodyBuilder

/-- Model of `hyper::method::Method`, the variants the source distinguishes. -/
inductive Method where
  | get
  | head
  | post
  | put
  | delete
  | patch
  | options
deriving DecidableEq, Repr

/-- Model of `Request`: method, url, params, headers, files, optional raw body. -/
structure Request where
  method : Method
  url : String
  params : Params
  headers : Headers
  files : List FileUpload
  raw_body : Option String
deriving DecidableEq, Repr

/-- Model of `Request::new`: empty params, headers and files, no raw body. -/
def Request.new (method : Method) (url : String) : Request :=
  { method := method, url := url, params := [], headers := [], files := [], raw_body := none }

/-- Model of `Request::params`: extends the existing params list. -/
def Request.addParams (r : Request) (additional : Params) : Request :=
  { r with params := r.params ++ additional }

/-- Model of `Request::files`: extends the existing files list. -/
def Request.addFiles (r : Request) (additional : List FileUpload) : Request :=
  { r with files := r.files ++ additional }

/-- Model of `Request::header`: sets a single header, replacing by name. -/
def Request.header (r : Request) (name value : String) : Request :=
  { r with headers := r.headers.set name value }

/-- Model of `Request::override_body`: stores a raw body; touches nothing else. -/
def Request.override_body (r : Request) (body : String) : Request :=
  { r with raw_body := some body }

/-- Model of `Request::json`: serializes the value (the serialization outcome is
the `ser` argument, since serde is external; the source calls
`serde_json::to_string(..).unwrap()`, so a failed serialization is a
panic, modelled as `none`), stores the text via `override_body`, then
sets the content-type header to application/json. -/
def Request.json (r : Request) (ser : Option String) : Option Request :=
  match ser with
  | none => none
  | some s => some ((r.override_body s).header ("Content-Type") ("application/json"))

/-- The request descriptor handed to the transport by `send`. -/
structure PreparedRequest where
  method : Method
  url : String
  headers : Headers
  body : Option (List Nat)
deriving DecidableEq, Repr

/-- Outcome of `Request::send` up to the transport call: a panic (from
an `unwrap()`), an error returned to the caller before any network call
(`CursError::Network` from a file read), or a dispatch of the fully
assembled request to the transport. -/
inductive SendOutcome where
  | panic
  | err
  | dispatch (pr : PreparedRequest)
deriving DecidableEq, Repr

/-- Model of `Request::send`: encode the params; parse and re-serialize the URL
(`into_url().unwrap()`: a panic on parse failure); for GET/HEAD with
params append the query string to the URL; then pick the body: a raw
body verbatim if present, otherwise for non-GET/HEAD either the
urlencoded params (setting the urlencoded content-type) or, when files
exist, the multipart body (setting the multipart content-type); GET and
HEAD get no body. -/
def Request.send (r : Request) (env : Env) : SendOutcome :=
  let params_as_query := formUrlEncode r.params
  match env.intoUrl r.url with
  | none => .panic
  | some base =>
    let url_string :=
      if r.params.length > 0 ∧ (r.method = .get ∨ r.method = .head)
      then base ++ "?" ++ params_as_query else base
    match r.raw_body with
    | some body => .dispatch ⟨r.method, url_string, r.headers, some (strBytes body)⟩
    | none =>
      if r.method ≠ .get ∧ r.method ≠ .head then
        if r.files.length = 0 then
          .dispatch ⟨r.method, url_string,
            r.headers.set ("Content-Type") ("application/x-www-form-urlencoded"),
            some (strBytes params_as_query)⟩
        else
          match MultipartBodyBuilder.build env env.boundary r.files r.params with
          | .panic => .panic
          | .ioErr => .err
          | .ok body => .dispatch ⟨r.method, url_string,
              r.headers.set ("Content-Type") ("multipart/form-data; boundary=" ++ env.boundary),
              some body⟩
      else
        .dispatch ⟨r.method, url_string, r.headers, none⟩

/-- State-passing form of `Request::send`: the source takes `&self` (an immutable borrow; no interior mutability is used): the state-passing translation returns the
builder alongside the outcome. The returned builder is assembled from
exactly the fields the body reads. -/
def Request.sendMut (r : Request) (env : Env) : SendOutcome × Request :=
  (r.send env,
   { method := r.method, url := r.url, params := r.params,
     headers := r.headers, files := r.files, raw_body := r.raw_body })

/-- Model of the `hyper` response: status code, headers, and the body text that
`read_to_string` produces. -/
structure Response where
  status : Nat
  headers : Headers
  body : String
deriving DecidableEq, Repr

/-- Model of `CursError`: a non-success status (carrying the full response), a
network failure, or a JSON decode failure carrying the diagnostic. -/
inductive CursError where
  | status (r : Response)
  | network
  | json (diag : String)
deriving DecidableEq, Repr

/-- Model of `CursResult<T>`. -/
abbrev CursResult (T : Type) := Except CursError T

/-- Model of `decode_success`: propagate an incoming error; on status 200, 201 or
202 parse the body text with the supplied deserializer (serde is
external, so the deserializer for the target type is the `parse`
argument); any other status yields `CursError::Status` with the full
response, with no parse attempted. -/
def decode_success {D : Type} (parse : String → Except String D)
    (self : CursResult Response) : CursResult D :=
  match self with
  | .error e => .error e
  | .ok response =>
    if response.status = 200 ∨ response.status = 201 ∨ response.status = 202 then
      match parse response.body with
      | .ok v => .ok v
      | .error diag => .error (.json diag)
    else
      .error (.status response)

/-! Helper lemmas shared by the claim theorems. -/

/-- Folding appends of rendered pieces equals the accumulator followed
by the flattened renderings. -/
theorem foldl_append_flatten {α : Type} (f : α → List Nat) (l : List α) (acc : List Nat) :
    l.foldl (fun a x => a ++ f x) acc = acc ++ (l.map f).flatten := by
  induction l generalizing acc with
  | nil => simp
  | cons x rest ih => simp [ih, List.append_assoc]

/-- When every file has a basename and is readable, the file loop
appends one rendered part per file, in order, then the terminator. -/
theorem buildFiles_ok (env : Env) (b : String) (l : List FileUpload) (acc : List Nat)
    (hbase : ∀ f ∈ l, (fileName f.path).isSome)
    (hread : ∀ f ∈ l, (env.fs f.path).isSome) :
    buildFiles env b acc l =
      .ok (acc ++ (l.map (multipartFilePart env b)).flatten
        ++ strBytes ("\r\n--" ++ b ++ "--")) := by
  induction l generalizing acc with
  | nil => simp [buildFiles]
  | cons f rest ih =>
    obtain ⟨base, hbase0⟩ := Option.isSome_iff_exists.mp (hbase f (by simp))
    obtain ⟨contents, hfs0⟩ := Option.isSome_iff_exists.mp (hread f (by simp))
    rw [buildFiles, hbase0, hfs0]
    dsimp only
    rw [ih _ (fun g hg => hbase g (by simp [hg])) (fun g hg => hread g (by simp [hg]))]
    simp [multipartFilePart, hbase0, hfs0, List.append_assoc]

/-- When every file has a basename but some file is unreadable, the
file loop returns the IO error. -/
theorem buildFiles_io_err (env : Env) (b : String) (l : List FileUpload) (acc : List Nat)
    (hbase : ∀ f ∈ l, (fileName f.path).isSome)
    (hbad : ∃ f ∈ l, env.fs f.path = none) :
    buildFiles env b acc l = .ioErr := by
  induction l generalizing acc with
  | nil => simp at hbad
  | cons f rest ih =>
    obtain ⟨base, hbase0⟩ := Option.isSome_iff_exists.mp (hbase f (by simp))
    by_cases hf : env.fs f.path = none
    · rw [buildFiles, hbase0, hf]
    · obtain ⟨contents, hc⟩ := Option.ne_none_iff_exists'.mp hf
      rw [buildFiles, hbase0, hc]
      apply ih _ (fun g hg => hbase g (by simp [hg]))
      obtain ⟨g, hg, hgnone⟩ := hbad
      rcases List.mem_cons.mp hg with h1 | h2
      · exact absurd (h1 ▸ hgnone) hf
      · exact ⟨g, h2, hgnone⟩

/-- A concrete environment for witnesses and counterexamples: URL
parsing is the identity, every file reads as the two bytes 7 and 8, the
mime guess is the generic binary type, and the boundary is BNDRY. -/
def idEnv : Env :=
  ⟨fun s => some s, fun _ => some [7, 8], fun _ => ("application/octet-stream"), ("BNDRY")⟩

/-! Claim theorems. -/

/-- Claim C1: on every request with a raw body set (via `json` or
`override_body`), `send` uses that raw body verbatim as the request
body — even with non-empty files and non-empty params — and dispatches
the headers unchanged (so neither the urlencoded nor the multipart
encoder runs, and `send` does not touch content-type beyond what `json`
already put into the headers). -/
theorem raw_body_sent_verbatim (env : Env) (r : Request) (b u : String)
    (hb : r.raw_body = some b) (hu : env.intoUrl r.url = some u) :
    r.send env = .dispatch ⟨r.method,
      (if r.params.length > 0 ∧ (r.method = .get ∨ r.method = .head)
       then u ++ "?" ++ formUrlEncode r.params else u),
      r.headers, some (strBytes b)⟩ := by
  simp only [Request.send, hu, hb]

/-- Witness for claim C1: a POST with a param, a file, and a raw body
dispatches the raw body bytes with untouched (empty) headers. -/
theorem raw_body_sent_verbatim_witness :
    Request.send ⟨.post, "http://x/", [("a", "b")], [], [⟨"f", none, "d/t.png"⟩], some ("RAW")⟩ idEnv
      = .dispatch ⟨.post, "http://x/", [], some (strBytes ("RAW"))⟩ := by
  have h := raw_body_sent_verbatim idEnv
    ⟨.post, "http://x/", [("a", "b")], [], [⟨"f", none, "d/t.png"⟩], some ("RAW")⟩
    ("RAW") ("http://x/") rfl rfl
  exact h.trans (by decide)

/-- A POST request with one file and a raw body, for the claim C2
counterexample. -/
def rawPlusFileReq : Request :=
  ⟨.post, "http://x/", [], [], [⟨"f", none, "d/t.png"⟩], some ("RAW")⟩

/-- Claim C2 fails as stated: on a POST whose files list is non-empty
but whose raw body is set, `send` dispatches the raw body with no
content-type header at all — the body is not the multipart encoding of
the files and params, so a non-empty files list does not force
multipart encoding when a raw body is present. -/
theorem files_with_raw_body_not_multipart :
    rawPlusFileReq.files ≠ [] ∧
    rawPlusFileReq.send idEnv = .dispatch ⟨.post, "http://x/", [], some (strBytes ("RAW"))⟩ ∧
    MultipartBodyBuilder.build idEnv idEnv.boundary rawPlusFileReq.files rawPlusFileReq.params
      ≠ .ok (strBytes ("RAW")) := by
  refine ⟨by decide, rfl, by decide⟩

/-- Claim C2 (amended): a non-empty files list forces multipart
encoding only when no raw body is set and the method is not GET or
HEAD; in that case `send` dispatches the built multipart body and sets
the multipart content-type carrying the generated boundary. -/
theorem files_force_multipart_without_raw_body (env : Env) (r : Request) (u : String)
    (body : List Nat) (hu : env.intoUrl r.url = some u) (hraw : r.raw_body = none)
    (hm1 : r.method ≠ .get) (hm2 : r.method ≠ .head) (hf : r.files ≠ [])
    (hb : MultipartBodyBuilder.build env env.boundary r.files r.params = .ok body) :
    r.send env = .dispatch ⟨r.method, u,
      r.headers.set ("Content-Type") ("multipart/form-data; boundary=" ++ env.boundary),
      some body⟩ := by
  have hlen : ¬ r.files.length = 0 := by
    simpa [List.length_eq_zero] using hf
  simp only [Request.send, hu, hraw]
  simp [hm1, hm2, hlen, hb]

/-- Witness for claim C2 (amended): a POST with one param and one file
and no raw body dispatches the multipart body with the multipart
content-type. -/
theorem files_force_multipart_without_raw_body_witness :
    Request.send ⟨.post, "http://x/", [("n", "v")], [], [⟨"f", none, "d/t.png"⟩], none⟩ idEnv
      = .dispatch ⟨.post, "http://x/",
        [("Content-Type", "multipart/form-data; boundary=BNDRY")],
        some (multipartParamPart ("BNDRY") ("n", "v")
          ++ multipartFilePart idEnv ("BNDRY") ⟨"f", none, "d/t.png"⟩
          ++ strBytes ("\r\n--BNDRY--"))⟩ := by
  have h := files_force_multipart_without_raw_body idEnv
    ⟨.post, "http://x/", [("n", "v")], [], [⟨"f", none, "d/t.png"⟩], none⟩ ("http://x/")
    (multipartParamPart ("BNDRY") ("n", "v")
      ++ multipartFilePart idEnv ("BNDRY") ⟨"f", none, "d/t.png"⟩
      ++ strBytes ("\r\n--BNDRY--"))
    rfl rfl (by decide) (by decide) (by decide) (by decide)
  exact h.trans (by decide)

/-- One param part rendered exactly as the spec words it: the boundary
line, the Content-Disposition line, then a blank line (a double CRLF)
before the value. Written from the spec, for comparison with the
rendering of the source. -/
def specParamPart (boundary : String) (p : Param) : List Nat :=
  strBytes ("\r\n--" ++ boundary ++ "\r\n"
    ++ "Content-Disposition: form-data; name=\"" ++ p.1 ++ "\"\r\n\r\n" ++ p.2 ++ "\r\n")

/-- Claim C3 fails as stated: with boundary B, the single param (n, v)
and no files, the built body is the rendering with a single CRLF
between the Content-Disposition line and the value, and differs from
the claimed rendering with a blank line there. -/
theorem multipart_param_blank_line_refuted :
    MultipartBodyBuilder.build idEnv ("B") [] [("n", "v")]
      = .ok (multipartParamPart ("B") ("n", "v") ++ strBytes ("\r\n--B--")) ∧
    MultipartBodyBuilder.build idEnv ("B") [] [("n", "v")]
      ≠ .ok (specParamPart ("B") ("n", "v") ++ strBytes ("\r\n--B--")) := by
  refine ⟨by decide, by decide⟩

/-- Claim C3 (amended): `build` produces all param parts first in input
order, then all file parts in input order, then the terminator
CRLF--boundary--; each param part is rendered as the boundary line, the
Content-Disposition line, a single CRLF (not a blank line), the value
and a CRLF. -/
theorem multipart_body_layout (env : Env) (b : String)
    (files : List FileUpload) (params : Params)
    (hbase : ∀ f ∈ files, (fileName f.path).isSome)
    (hread : ∀ f ∈ files, (env.fs f.path).isSome) :
    MultipartBodyBuilder.build env b files params =
      .ok ((params.map (multipartParamPart b)).flatten
        ++ (files.map (multipartFilePart env b)).flatten
        ++ strBytes ("\r\n--" ++ b ++ "--")) := by
  unfold MultipartBodyBuilder.build
  rw [foldl_append_flatten, buildFiles_ok env b files _ hbase hread]
  simp

/-- Witness for claim C3 (amended) at two params and one file. -/
theorem multipart_body_layout_witness :
    MultipartBodyBuilder.build idEnv ("B") [⟨"f", none, "d/t.png"⟩] [("n", "v"), ("m", "w")] =
      .ok (([("n", "v"), ("m", "w")].map (multipartParamPart ("B"))).flatten
        ++ ([(⟨"f", none, "d/t.png"⟩ : FileUpload)].map (multipartFilePart idEnv ("B"))).flatten
        ++ strBytes ("\r\n--" ++ "B" ++ "--")) :=
  multipart_body_layout idEnv ("B") [⟨"f", none, "d/t.png"⟩] [("n", "v"), ("m", "w")]
    (by decide) (by decide)

/-- Claim C4: on a received response, `decode_success` returns the
parsed value when the status is 200, 201 or 202 and the body parses;
returns the Json error carrying the parse diagnostic when the status is
a success but the body fails to parse; and on every other status
returns the Status error carrying the full response, independently of
the deserializer (no parse is attempted). -/
theorem decode_success_classification {D : Type}
    (parse parse2 : String → Except String D) (resp : Response) :
    (resp.status = 200 ∨ resp.status = 201 ∨ resp.status = 202 →
      (∀ v, parse resp.body = .ok v → decode_success parse (.ok resp) = .ok v) ∧
      (∀ diag, parse resp.body = .error diag →
        decode_success parse (.ok resp) = .error (.json diag))) ∧
    (¬(resp.status = 200 ∨ resp.status = 201 ∨ resp.status = 202) →
      decode_success parse (.ok resp) = .error (.status resp) ∧
      decode_success parse (.ok resp) = decode_success parse2 (.ok resp)) := by
  constructor
  · intro hs
    constructor
    · intro v hv; simp [decode_success, hs, hv]
    · intro diag hdiag; simp [decode_success, hs, hdiag]
  · intro hs
    constructor
    · simp [decode_success, hs]
    · simp [decode_success, hs]

/-- A concrete deserializer for the claim C4 witness: the body 5
parses to the number five, everything else fails with a diagnostic. -/
def c4parse (s : String) : Except String Nat :=
  if s = "5" then .ok 5 else .error ("bad")

/-- Witness for claim C4 at status 200 with a parsing body, status 200
with a failing body, and status 404. -/
theorem decode_success_classification_witness :
    decode_success c4parse (.ok ⟨200, [], ("5")⟩) = .ok 5 ∧
    decode_success c4parse (.ok ⟨200, [], ("x")⟩) = .error (.json ("bad")) ∧
    decode_success c4parse (.ok ⟨404, [], ("5")⟩) = .error (.status ⟨404, [], ("5")⟩) := by
  refine ⟨?_, ?_, ?_⟩
  · exact ((decode_success_classification c4parse c4parse ⟨200, [], ("5")⟩).1
      (by decide)).1 5 rfl
  · exact ((decode_success_classification c4parse c4parse ⟨200, [], ("x")⟩).1
      (by decide)).2 ("bad") rfl
  · exact ((decode_success_classification c4parse c4parse ⟨404, [], ("5")⟩).2
      (by decide)).1

/-- An environment on which URL parsing always fails, for the claim C5
counterexample. -/
def noUrlEnv : Env :=
  ⟨fun _ => none, fun _ => some [7, 8], fun _ => ("application/octet-stream"), ("BNDRY")⟩

/-- Claim C5 fails as stated: a GET on a URL that fails to parse makes
`send` panic (the source calls `into_url().unwrap()`), an uncatchable
fault rather than a tagged CursError result. -/
theorem unparseable_url_panics :
    Request.send (Request.new .get ("::bad url::")) noUrlEnv = .panic ∧
    SendOutcome.panic ≠ .err := by
  refine ⟨rfl, by decide⟩

/-- Claim C5 (amended): failures during multipart body assembly (a file
that fails to open or read) are returned to the caller as a tagged
CursError result; but an unparseable URL panics at `send`, a value
whose JSON serialization fails panics in `json`, and a multipart send
whose first file path has no final component panics inside body
assembly. -/
theorem send_failure_modes (env : Env) (r : Request) :
    (env.intoUrl r.url = none → r.send env = .panic) ∧
    (r.json none = none) ∧
    (∀ u f rest, env.intoUrl r.url = some u → r.files = f :: rest →
      fileName f.path = none → r.raw_body = none →
      r.method ≠ .get → r.method ≠ .head → r.send env = .panic) ∧
    (∀ u, env.intoUrl r.url = some u → r.raw_body = none →
      r.method ≠ .get → r.method ≠ .head →
      (∀ f ∈ r.files, (fileName f.path).isSome) →
      (∃ f ∈ r.files, env.fs f.path = none) →
      r.send env = .err) := by
  refine ⟨?_, rfl, ?_, ?_⟩
  · intro hu; simp [Request.send, hu]
  · intro u f rest hu hfiles hname hraw hm1 hm2
    simp only [Request.send, hu, hraw, hfiles]
    simp [hm1, hm2, MultipartBodyBuilder.build, buildFiles, hname]
  · intro u hu hraw hm1 hm2 hbase hbad
    have hne : r.files ≠ [] := by
      obtain ⟨g, hg, _⟩ := hbad
      intro h; rw [h] at hg; simp at hg
    have hlen : ¬ r.files.length = 0 := by simpa [List.length_eq_zero] using hne
    have hio := buildFiles_io_err env env.boundary r.files
      (r.params.foldl (fun acc p => acc ++ multipartParamPart env.boundary p) []) hbase hbad
    simp only [Request.send, hu, hraw]
    simp [hm1, hm2, hlen, MultipartBodyBuilder.build, hio]

/-- Witness for claim C5 (amended): a POST of a file whose path has no
final component panics inside multipart assembly. -/
theorem send_failure_modes_witness :
    Request.send ⟨.post, "http://x/", [], [], [⟨"f", none, ".."⟩], none⟩ idEnv = .panic :=
  (send_failure_modes idEnv ⟨.post, "http://x/", [], [], [⟨"f", none, ".."⟩], none⟩).2.2.1
    ("http://x/") ⟨"f", none, ".."⟩ [] rfl rfl (by decide) rfl (by decide) (by decide)

/-- Claim C6: on a GET or HEAD request with no raw body, `send`
appends a question mark and the url-encoded params to the URL exactly
when params are non-empty, attaches no body whatever the params and
files are, silently drops any files, and passes the headers through
unchanged. -/
theorem get_head_query_no_body (env : Env) (r : Request) (u : String)
    (hu : env.intoUrl r.url = some u) (hraw : r.raw_body = none)
    (hm : r.method = .get ∨ r.method = .head) :
    r.send env = .dispatch ⟨r.method,
      (if r.params.length > 0 then u ++ "?" ++ formUrlEncode r.params else u),
      r.headers, none⟩ := by
  rcases hm with hm | hm
  · simp only [Request.send, hu, hraw, hm]
    simp
  · simp only [Request.send, hu, hraw, hm]
    simp

/-- Witness for claim C6: a GET with two params and a file dispatches
the URL with the encoded query appended, no body, and the file dropped. -/
theorem get_head_query_no_body_witness :
    Request.send ⟨.get, "http://x/a", [("one", "value_one"), ("two", "value_two")], [],
        [⟨"f", none, "d/t.png"⟩], none⟩ idEnv
      = .dispatch ⟨.get, "http://x/a?one=value_one&two=value_two", [], none⟩ := by
  have h := get_head_query_no_body idEnv
    ⟨.get, "http://x/a", [("one", "value_one"), ("two", "value_two")], [],
      [⟨"f", none, "d/t.png"⟩], none⟩
    ("http://x/a") rfl rfl (Or.inl rfl)
  exact h.trans (by decide)

/-- Claim C7: on a request whose method is neither GET nor HEAD, with
no raw body and no files, `send` uses the url-encoded params string as
the body (pairs in input order, name=value, joined with ampersands) and
sets the content-type header to application/x-www-form-urlencoded. -/
theorem form_urlencoded_body (env : Env) (r : Request) (u : String)
    (hu : env.intoUrl r.url = some u) (hraw : r.raw_body = none)
    (hm1 : r.method ≠ .get) (hm2 : r.method ≠ .head) (hf : r.files = []) :
    r.send env = .dispatch ⟨r.method, u,
      r.headers.set ("Content-Type") ("application/x-www-form-urlencoded"),
      some (strBytes (formUrlEncode r.params))⟩ := by
  simp only [Request.send, hu, hraw, hf]
  simp [hm1, hm2]

/-- Witness for claim C7 at the params of the spec scenario: the body
is the literal one=value_one&two=value_two. -/
theorem form_urlencoded_body_witness :
    Request.send ⟨.post, "http://x/", [("one", "value_one"), ("two", "value_two")], [], [], none⟩
        idEnv
      = .dispatch ⟨.post, "http://x/",
        [("Content-Type", "application/x-www-form-urlencoded")],
        some (strBytes ("one=value_one&two=value_two"))⟩ := by
  have h := form_urlencoded_body idEnv
    ⟨.post, "http://x/", [("one", "value_one"), ("two", "value_two")], [], [], none⟩
    ("http://x/") rfl rfl (by decide) (by decide) rfl
  exact h.trans (by decide)

/-- Claim C8: on a multipart request (no raw body, method not GET or
HEAD, files present with valid basenames) in which some file fails to
open or read, `send` returns the Network error to the caller and never
dispatches to the transport. -/
theorem file_error_aborts_send (env : Env) (r : Request) (u : String)
    (hu : env.intoUrl r.url = some u) (hraw : r.raw_body = none)
    (hm1 : r.method ≠ .get) (hm2 : r.method ≠ .head)
    (hbase : ∀ f ∈ r.files, (fileName f.path).isSome)
    (hbad : ∃ f ∈ r.files, env.fs f.path = none) :
    r.send env = .err ∧ ∀ pr, r.send env ≠ .dispatch pr := by
  have hne : r.files ≠ [] := by
    obtain ⟨g, hg, _⟩ := hbad
    intro h; rw [h] at hg; simp at hg
  have hlen : ¬ r.files.length = 0 := by simpa [List.length_eq_zero] using hne
  have hio := buildFiles_io_err env env.boundary r.files
    (r.params.foldl (fun acc p => acc ++ multipartParamPart env.boundary p) []) hbase hbad
  have herr : r.send env = .err := by
    simp only [Request.send, hu, hraw]
    simp [hm1, hm2, hlen, MultipartBodyBuilder.build, hio]
  exact ⟨herr, fun pr h => by rw [herr] at h; exact SendOutcome.noConfusion h⟩

/-- An environment on which every file read fails, for the claim C8
witness. -/
def noFsEnv : Env :=
  ⟨fun s => some s, fun _ => none, fun _ => ("application/octet-stream"), ("BNDRY")⟩

/-- Witness for claim C8: a POST of one unreadable file yields the
returned error outcome. -/
theorem file_error_aborts_send_witness :
    Request.send ⟨.post, "http://x/", [("n", "v")], [], [⟨"f", none, "d/t.png"⟩], none⟩ noFsEnv
      = .err :=
  (file_error_aborts_send noFsEnv
    ⟨.post, "http://x/", [("n", "v")], [], [⟨"f", none, "d/t.png"⟩], none⟩
    ("http://x/") rfl rfl (by decide) (by decide) (by decide)
    ⟨⟨"f", none, "d/t.png"⟩, by decide, rfl⟩).1

/-- Claim C9: the raw body is last-write-wins — `override_body` called
after `json` replaces the stored raw body with its argument — while the
headers, the content-type among them, are exactly those `json` left
(`override_body` changes no header). -/
theorem override_body_after_json (r : Request) (j s : String) (r1 : Request)
    (h : r.json (some j) = some r1) :
    (r1.override_body s).raw_body = some s ∧
    Headers.get (r1.override_body s).headers ("Content-Type") = some ("application/json") ∧
    (r1.override_body s).headers = r1.headers := by
  have h1 : r1 = (r.override_body j).header ("Content-Type") ("application/json") := by
    simpa [Request.json] using h.symm
  subst h1
  refine ⟨rfl, ?_, rfl⟩
  simp [Request.override_body, Request.header, Headers.get, Headers.set]

/-- The request obtained by calling `json` on a fresh POST, for the
claim C9 witness. -/
def jsonReq : Request :=
  ((Request.new .post ("http://x/")).override_body ("J")).header
    ("Content-Type") ("application/json")

/-- Witness for claim C9: after `json` with body J and then
`override_body` with body S, the raw body is S and the content-type is
still application/json. -/
theorem override_body_after_json_witness :
    (jsonReq.override_body ("S")).raw_body = some ("S") ∧
    Headers.get (jsonReq.override_body ("S")).headers ("Content-Type")
      = some ("application/json") ∧
    (jsonReq.override_body ("S")).headers = jsonReq.headers :=
  override_body_after_json (Request.new .post ("http://x/")) ("J") ("S") jsonReq rfl

/-- Claim C10: `send` borrows the builder immutably; the state-passing
translation returns the builder with every field — method, url, params,
headers, files, raw body — unchanged, its outcome is that of the pure
`send`, and a repeated send of the returned builder gives the same
outcome again. -/
theorem send_leaves_request_unchanged (r : Request) (env : Env) :
    (r.sendMut env).2 = r ∧
    (r.sendMut env).1 = r.send env ∧
    ((r.sendMut env).2.sendMut env).1 = (r.sendMut env).1 := by
  obtain ⟨m, u, p, h, f, b⟩ := r
  exact ⟨rfl, rfl, rfl⟩

end Curs
